import Mathlib

/-!
Verification of the admin commands of `src/commands/default/admin.py` and
the configuration models of `src/config/models.py`, as a shallow embedding.

Each command's `func` is translated into a pure Lean function from the
framework-parsed command pieces (switches, args, lhs, rhs, lhslist,
rhslist, cmdstring — produced by `MuxCommand`, which is outside the shown
sources) and an environment record standing for the framework
collaborators (`caller.search`, `has_perm`, the `SESSIONS` registry, the
user/player stores) to a list of observable effects: messages sent,
sessions disconnected, records deleted, attributes assigned.  A command
whose Python body lets an exception escape is modelled with an `Outcome`
that carries the exception instead of an effect list.
-/

namespace EvenniaAdmin

/-! ### Python string primitives used by the command bodies

They are written over `List Char` with structural recursion so that every
concrete invocation evaluates by `rfl`/`decide`. -/

/-- Leading and trailing whitespace removed from a character list. -/
def stripChars (l : List Char) : List Char :=
  ((l.dropWhile Char.isWhitespace).reverse.dropWhile Char.isWhitespace).reverse

/-- Python `str.strip()`: remove leading and trailing whitespace. -/
def pyStrip (s : String) : String := String.mk (stripChars s.data)

/-- Python `':' in args`. -/
def hasColon (s : String) : Bool := s.data.contains ':'

/-- The characters before and after the first colon, when one exists. -/
def breakAtColon : List Char → Option (List Char × List Char)
  | [] => none
  | c :: cs =>
    if c = ':' then some ([], cs)
    else match breakAtColon cs with
      | none => none
      | some (a, b) => some (c :: a, b)

/-- Python `[a.strip() for a in args.split(':', 1)]`: split at the first
colon, both pieces stripped. -/
def splitColonFirst (s : String) : String × String :=
  match breakAtColon s.data with
  | none => (pyStrip s, "")
  | some (a, b) => (String.mk (stripChars a), String.mk (stripChars b))

/-- The value of a non-empty all-digit character list, else `none`. -/
def digitsToNat (l : List Char) : Option Nat :=
  if l.isEmpty then none
  else if l.all Char.isDigit then
    some (l.foldl (fun n c => n * 10 + (c.toNat - '0'.toNat)) 0)
  else none

/-- Python `int(s)` on a string: optional surrounding whitespace, an
optional sign, then decimal digits; anything else raises `ValueError`
(modelled as `none`). -/
def pyInt (s : String) : Option Int :=
  match stripChars s.data with
  | '-' :: rest => (digitsToNat rest).map (fun n => -(n : Int))
  | '+' :: rest => (digitsToNat rest).map (fun n => (n : Int))
  | t => (digitsToNat t).map (fun n => (n : Int))

/-- Python truthiness of `self.rhs`: `None` (no `=` was present) and the
empty string are both falsy. -/
def pyFalsyOptStr : Option String → Bool
  | none => true
  | some s => s == ""

/-! ### Observable effects of one command invocation -/

/-- Who a `msg` call is addressed to. -/
inductive Recipient where
  | toCaller
  | toObj (key : String)
  | toSession (sid : Nat)
  deriving DecidableEq, Repr

/-- One observable side effect of a command body. -/
inductive Effect where
  | msg (r : Recipient) (text : String)
  | msgNone (r : Recipient)
  | disconnect (sid : Nat)
  | deletePlayer (key : String)
  | deleteUser (username : String)
  | setPassword (username pw : String)
  | setPermissions (objKey : String) (perms : List String)
  | executeCmd (line : String)
  | swapCharacter (objKey : String)
  | announceAll (text : String)
  deriving DecidableEq, Repr

/-- Result of running a command body: either the ordered effects, or an
unhandled Python exception escaping `func`. -/
inductive Outcome where
  | ok (effects : List Effect)
  | exn (error : String)
  deriving DecidableEq, Repr

/-! ### Sessions -/

/-- A live network session: `sid` identifies it, `port` is
`getClientAddress()[1]`, `name` is `session.name`. -/
structure Session where
  sid : Nat
  port : Int
  name : String
  deriving DecidableEq, Repr

/-! ### CmdBoot (`@boot`, admin.py lines 16-91) -/

/-- The player object `caller.search("*"++args, global_search=True)` can
return in `CmdBoot.func`: its key and whether `pobj.character.has_player`. -/
structure BootPObj where
  key : String
  characterHasPlayer : Bool
  deriving DecidableEq, Repr

/-- Collaborators of `CmdBoot.func`: the caller's name, the global session
list, the player search, the `can_boot` permission verdict and the target's
sessions. -/
structure BootEnv where
  callerName : String
  sessionList : List Session
  searchStar : String → Option BootPObj
  canBoot : Bool
  sessionsFromPlayer : List Session

def bootUsage : String := "Usage: @boot[/switches] <player> [:reason]"

/-- The argument `int(args)` is applied to: when a colon is present the
text before the first colon, stripped (admin.py lines 44-45). -/
def bootEffectiveArg (rawArgs : String) : String :=
  if hasColon rawArgs then (splitColonFirst rawArgs).1 else rawArgs

/-- Lines 79-91 of admin.py: for each session in `boot_list`, send the
feedback (`None` when `/quiet`), disconnect it, and report to the caller.
When the list is empty, report "No matches found." instead. -/
def bootFinish (callerName reason : String) (quiet : Bool) (bootList : List Session) :
    List Effect :=
  if bootList.isEmpty then [Effect.msg Recipient.toCaller "No matches found."]
  else
    bootList.foldr (fun s acc =>
      (if quiet then [Effect.msgNone (Recipient.toSession s.sid)]
       else [Effect.msg (Recipient.toSession s.sid)
          ("You have been disconnected by " ++ callerName ++ ".\n" ++
           (if reason ≠ "" then "\nReason given: " ++ reason else ""))]) ++
      [Effect.disconnect s.sid,
       Effect.msg Recipient.toCaller ("You booted " ++ s.name ++ ".")] ++ acc) []

/-- `CmdBoot.func` (admin.py lines 35-91).  Mirrored faithfully, including:
line 47 (`reason = ""`) runs after the colon split of lines 44-45 and so
discards any parsed reason; line 54 evaluates `int(args)` inside the loop
over the session list, so a non-numeric argument raises `ValueError` as
soon as one session exists; lines 62-66 send the permission denial to
`pobj`, not to the caller, with the `%s` placeholder left unfilled. -/
def cmdBoot (env : BootEnv) (switches : List String) (rawArgs : String) : Outcome :=
  if rawArgs == "" then Outcome.ok [Effect.msg Recipient.toCaller bootUsage]
  else
    let args := bootEffectiveArg rawArgs
    let reason : String := ""
    if switches.contains "port" then
      match env.sessionList with
      | [] => Outcome.ok (bootFinish env.callerName reason (switches.contains "quiet") [])
      | _ :: _ =>
        match pyInt args with
        | none => Outcome.exn "ValueError"
        | some p =>
          let bootList := (env.sessionList.find? (fun s => s.port == p)).toList
          Outcome.ok (bootFinish env.callerName reason (switches.contains "quiet") bootList)
    else
      match env.searchStar args with
      | none => Outcome.ok []
      | some pobj =>
        if pobj.characterHasPlayer then
          if env.canBoot then
            Outcome.ok (bootFinish env.callerName reason (switches.contains "quiet")
              env.sessionsFromPlayer)
          else
            Outcome.ok [Effect.msg (Recipient.toObj pobj.key)
              "You don't have the permission to boot %s."]
        else Outcome.ok [Effect.msg Recipient.toCaller "That object has no connected player."]

/-! ### Concrete boot scenarios -/

/-- A session owned by player bob on port 4000. -/
def sessBob : Session := ⟨1, 4000, "bob"⟩

/-- Caller Admin lacking `can_boot`; bob has a connected player. -/
def bootEnvNoPerm : BootEnv :=
  { callerName := "Admin"
    sessionList := [sessBob]
    searchStar := fun s => if s == "bob" then some ⟨"bob", true⟩ else none
    canBoot := false
    sessionsFromPlayer := [sessBob] }

/-- Caller Admin holding `can_boot`; bob has a connected player. -/
def bootEnvPerm : BootEnv :=
  { callerName := "Admin"
    sessionList := [sessBob]
    searchStar := fun s => if s == "bob" then some ⟨"bob", true⟩ else none
    canBoot := true
    sessionsFromPlayer := [sessBob] }

/-! ### CmdDelPlayer (`@delplayer`, admin.py lines 94-199) -/

/-- A player record as `CmdDelPlayer.func` reads it: database id, key,
the username of the linked user, and the linked character (if any). -/
structure DelPlayerRec where
  pid : Int
  key : String
  username : String
  charKey : String
  hasChar : Bool
  charHasPlayer : Bool
  deriving DecidableEq, Repr

/-- A raw `User` credential record: its username and, when
`user.get_profile()` succeeds, the linked player's name. -/
structure DelUserRec where
  username : String
  profileName : Option String
  deriving DecidableEq, Repr

/-- Collaborators of `CmdDelPlayer.func`: the player search, the
`PlayerDB.objects.filter(id=...)` lookup, the two `User.objects.get`
lookups (each `none` when the Django call raises), and the two permission
verdicts. -/
structure DelEnv where
  searchStar : String → List DelPlayerRec
  playersById : String → List DelPlayerRec
  userById : String → Option DelUserRec
  userByName : String → Option DelUserRec
  hasPermStringManage : Bool
  hasPermManage : Bool

def delPlayerUsage : String :=
  "Usage: @delplayer[/delobj] <player/user name or #id> [: reason]"

/-- `CmdDelPlayer.func` (admin.py lines 113-199).  Mirrored faithfully,
including lines 169-173: when more than one player matches, the ambiguity
string is built locally but never passed to `caller.msg`, and the bare
`return` produces no effect at all.  The `delobj` switch the docstring
advertises is never read by the body, so the switches are unused. -/
def cmdDelPlayer (env : DelEnv) (_switches : List String) (rawArgs : String) : List Effect :=
  if rawArgs == "" then [Effect.msg Recipient.toCaller delPlayerUsage]
  else
    let args := if hasColon rawArgs then (splitColonFirst rawArgs).1 else rawArgs
    let reason := if hasColon rawArgs then (splitColonFirst rawArgs).2 else ""
    let players0 := env.searchStar args
    let players :=
      if players0.isEmpty then
        match pyInt args with
        | none => players0
        | some _ => env.playersById args
      else players0
    match players with
    | [] =>
      match (match env.userById args with
             | some u => some u
             | none => env.userByName args) with
      | none =>
        [Effect.msg Recipient.toCaller ("No Player nor User found matching '" ++ args ++ "'.")]
      | some user =>
        if env.hasPermStringManage then
          match user.profileName with
          | some pname =>
            [Effect.deleteUser user.username, Effect.deletePlayer pname,
             Effect.msg Recipient.toCaller ("Player " ++ pname ++ " was deleted.")]
          | none =>
            [Effect.deleteUser user.username,
             Effect.msg Recipient.toCaller
               ("The User " ++ user.username ++
                " was deleted. It had no Player associated with it.")]
        else [Effect.msg Recipient.toCaller "You don't have the permissions to delete this player."]
    | [player] =>
      if env.hasPermManage then
        (if player.hasChar && player.charHasPlayer then
          [Effect.msg Recipient.toCaller "Booting and informing player ...",
           Effect.msg (Recipient.toObj player.charKey)
             ("\nYour account '" ++ player.username ++ "' is being *permanently* deleted.\n" ++
              (if reason ≠ "" then " Reason given:\n  '" ++ reason ++ "'" else "")),
           Effect.executeCmd ("@boot " ++ player.username)]
         else []) ++
        [Effect.deletePlayer player.key, Effect.deleteUser player.username,
         Effect.msg Recipient.toCaller ("Player " ++ player.username ++ " was successfully deleted.")]
      else [Effect.msg Recipient.toCaller "You don't have the permissions to delete that player."]
    | _ :: _ :: _ => []

/-! ### CmdEmit (`@emit` / `@remit` / `@pemit`, admin.py lines 202-278) -/

/-- What `caller.search(objname, global_search=True)` yields for an emit
target: its location (`none` marks a room), `has_player`, and the keys of
its contents. -/
structure EmitObj where
  location : Option String
  hasPlayer : Bool
  contents : List String
  deriving DecidableEq, Repr

/-- Collaborators of `CmdEmit.func`: the caller's location key (the default
target), the object search, and the `send_to` permission verdict per
target name. -/
structure EmitEnv where
  callerLocationKey : String
  search : String → Option EmitObj
  sendTo : String → Bool

def emitUsage : String :=
  "Usage: \n@emit[/switches] [<obj>, <obj>, ... =] <message>\n@remit           [<obj>, <obj>, ... =] <message>\n@pemit           [<obj>, <obj>, ... =] <message>"

/-- admin.py lines 241, 246-247: `rooms_only` starts as `'rooms' in
switches` and is forced to `True` when the command was invoked as
`@remit`. -/
def emitRoomsOnly (cmdstring : String) (switches : List String) : Bool :=
  if cmdstring == "@remit" then true else switches.contains "rooms"

/-- admin.py lines 242, 246-249: `players_only` starts as `'players' in
switches` and is forced to `True` when the command was invoked as
`@pemit` (the `elif` leaves it at its switch value under `@remit`). -/
def emitPlayersOnly (cmdstring : String) (switches : List String) : Bool :=
  if cmdstring == "@remit" then switches.contains "players"
  else if cmdstring == "@pemit" then true
  else switches.contains "players"

/-- admin.py lines 259-278: the loop over the target names.  A failed
lookup returns from `func` at once (line 262), dropping every remaining
target without a message. -/
def emitLoop (env : EmitEnv) (roomsOnly playersOnly sendToContents : Bool)
    (message : String) : List String → List Effect
  | [] => []
  | objname :: rest =>
    match env.search objname with
    | none => []
    | some obj =>
      if roomsOnly && obj.location.isSome then
        Effect.msg Recipient.toCaller (objname ++ " is not a room. Ignored.") ::
          emitLoop env roomsOnly playersOnly sendToContents message rest
      else if playersOnly && !obj.hasPlayer then
        Effect.msg Recipient.toCaller (objname ++ " has no active player. Ignored.") ::
          emitLoop env roomsOnly playersOnly sendToContents message rest
      else if env.sendTo objname then
        (Effect.msg (Recipient.toObj objname) message ::
          (if sendToContents then
            (obj.contents.map (fun c => Effect.msg (Recipient.toObj c) message)) ++
              [Effect.msg Recipient.toCaller ("Emitted to " ++ objname ++ " and its contents.")]
          else [Effect.msg Recipient.toCaller ("Emitted to " ++ objname ++ ".")])) ++
          emitLoop env roomsOnly playersOnly sendToContents message rest
      else
        Effect.msg Recipient.toCaller ("You are not allowed to send to " ++ objname ++ ".") ::
          emitLoop env roomsOnly playersOnly sendToContents message rest

/-- `CmdEmit.func` (admin.py lines 227-278).  `rhs` is `self.rhs` (`none`
when no `=` was typed), `lhslist` is `self.lhslist`. -/
def cmdEmit (env : EmitEnv) (cmdstring : String) (switches : List String)
    (args : String) (rhs : Option String) (lhslist : List String) : List Effect :=
  if args == "" then [Effect.msg Recipient.toCaller emitUsage]
  else
    let roomsOnly := emitRoomsOnly cmdstring switches
    let playersOnly := emitPlayersOnly cmdstring switches
    let sendToContents := switches.contains "contents"
    let message := if pyFalsyOptStr rhs then args else rhs.getD ""
    let objnames := if pyFalsyOptStr rhs then [env.callerLocationKey] else lhslist
    emitLoop env roomsOnly playersOnly sendToContents message objnames

/-! ### CmdNewPassword (`@userpassword`, admin.py lines 282-314) -/

/-- What `caller.search("*"++lhs, global_search=True)` yields in
`CmdNewPassword.func`: whether the found character is the caller, the
linked player's name and the credential's username. -/
structure PwTarget where
  isCaller : Bool
  playerName : String
  username : String
  deriving DecidableEq, Repr

/-- Collaborators of `CmdNewPassword.func`. -/
structure NewPwEnv where
  callerName : String
  searchStar : String → Option PwTarget

def newPasswordUsage : String := "Usage: @userpassword <user obj> = <new password>"

/-- `CmdNewPassword.func` (admin.py lines 296-314). -/
def cmdNewPassword (env : NewPwEnv) (lhs : String) (rhs : Option String) : List Effect :=
  if pyFalsyOptStr rhs then [Effect.msg Recipient.toCaller newPasswordUsage]
  else
    let pw := rhs.getD ""
    match env.searchStar lhs with
    | none => []
    | some ch =>
      [Effect.setPassword ch.username pw,
       Effect.msg Recipient.toCaller (ch.playerName ++ " - new password set to '" ++ pw ++ "'.")] ++
      (if ch.isCaller then []
       else [Effect.msg (Recipient.toObj ch.playerName)
          (env.callerName ++ " has changed your password to '" ++ pw ++ "'.")])

/-! ### CmdPerm (`@perm` / `@setperm`, admin.py lines 317-422) -/

/-- The object `caller.search(lhs, global_search=True)` yields in
`CmdPerm.func`: key, name, its current permission list, whether it
inherits from `BASE_PLAYER_TYPECLASS`, and the superuser flags the view
branch reads. -/
structure PermObj where
  key : String
  name : String
  permissions : List String
  isPlayerType : Bool
  isSuperuser : Bool
  playerIsSuperuser : Bool
  deriving DecidableEq, Repr

/-- Collaborators of `CmdPerm.func`.  `permGroupListing` stands for the
text built from the `PermissionGroup` table and `utils.fill` in the
`/list` branch (those live outside the shown sources). -/
structure PermEnv where
  callerName : String
  permGroupListing : String
  search : String → Option PermObj

def permUsage : String :=
  "Usage: @setperm[/switch] [object = permission]\n       @setperm[/switch] [*player = permission]"

/-- `pstring` of admin.py lines 371-373: " Player " for player-typed
objects, empty otherwise. -/
def permPString (obj : PermObj) : String := if obj.isPlayerType then " Player " else ""

/-- The view branch's string (admin.py lines 375-387). -/
def permViewString (obj : PermObj) : String :=
  let base := "Permission string on " ++ permPString obj ++ "\x7bw" ++ obj.key ++ "\x7bn: " ++
    (if obj.permissions.isEmpty then "<None>" else String.intercalate ", " obj.permissions)
  if permPString obj ≠ "" && obj.isSuperuser then
    base ++ "\n(... But this player is a SUPERUSER! All access checked are passed automatically.)"
  else if obj.playerIsSuperuser then
    base ++ "\n(... But this object's player is a SUPERUSER! All access checked are passed automatically.)"
  else base

/-- The loop state of the grant/revoke branches: the working permission
list, the two accumulated report strings, and how many times
`obj.permissions = permissions` was executed. -/
structure PermLoopState where
  perms : List String
  cstring : String
  tstring : String
  assigns : Nat
  deriving DecidableEq, Repr

/-- One iteration of the `del` loop (admin.py lines 396-406): a missing
permission adds the "was not defined" note (worded with `lhs`) and leaves
the list alone; a present one is removed at its first index. -/
def permDelStep (callerName lhs pstring objName : String)
    (st : PermLoopState) (perm : String) : PermLoopState :=
  if st.perms.contains perm then
    { perms := st.perms.erase perm
      cstring := st.cstring ++ "\nPermission '" ++ perm ++ "' was removed from " ++
        pstring ++ objName ++ "."
      tstring := st.tstring ++ "\n" ++ callerName ++ " revokes the permission '" ++
        perm ++ "' from you."
      assigns := st.assigns + 1 }
  else
    { st with cstring := st.cstring ++ "\nPermission '" ++ perm ++ "' was not defined on " ++
        pstring ++ lhs ++ "." }

/-- One iteration of the grant loop (admin.py lines 410-419): a permission
already in the list only adds the "is already defined" note (worded with
the whole `rhs`); a new one is appended and assigned back. -/
def permAddStep (callerName rhs pstring objName : String)
    (st : PermLoopState) (perm : String) : PermLoopState :=
  if st.perms.contains perm then
    { st with cstring := st.cstring ++ "\nPermission '" ++ rhs ++ "' is already defined on " ++
        pstring ++ objName ++ "." }
  else
    { perms := st.perms ++ [perm]
      cstring := st.cstring ++ "\nPermission '" ++ rhs ++ "' given to " ++
        pstring ++ objName ++ "."
      tstring := st.tstring ++ "\n" ++ callerName ++ " granted you the permission '" ++
        rhs ++ "'."
      assigns := st.assigns + 1 }

/-- The whole `del` loop over `self.rhslist`, started from the object's
current permissions. -/
def permDelRun (callerName lhs : String) (obj : PermObj) (rhslist : List String) :
    PermLoopState :=
  rhslist.foldl (permDelStep callerName lhs (permPString obj) obj.name)
    ⟨obj.permissions, "", "", 0⟩

/-- The whole grant loop over `self.rhslist`, started from the object's
current permissions. -/
def permAddRun (callerName rhs : String) (obj : PermObj) (rhslist : List String) :
    PermLoopState :=
  rhslist.foldl (permAddStep callerName rhs (permPString obj) obj.name)
    ⟨obj.permissions, "", "", 0⟩

/-- `CmdPerm.func` (admin.py lines 339-422).  The intermediate
`obj.permissions = permissions` assignments of the loops write through the
same list, so they are collapsed into one `setPermissions` effect carrying
the final list, emitted exactly when at least one assignment ran; the two
report strings are sent stripped, the second only when non-empty. -/
def cmdPerm (env : PermEnv) (switches : List String) (args lhs : String)
    (rhs : Option String) (rhslist : List String) : List Effect :=
  if args == "" then
    if switches.contains "list" then
      [Effect.msg Recipient.toCaller
        ("\nAll defined permission groups and keys (i.e. not locks):" ++ env.permGroupListing)]
    else [Effect.msg Recipient.toCaller permUsage]
  else
    match env.search lhs with
    | none => []
    | some obj =>
      if pyFalsyOptStr rhs then [Effect.msg Recipient.toCaller (permViewString obj)]
      else
        let st :=
          if switches.contains "del" then permDelRun env.callerName lhs obj rhslist
          else permAddRun env.callerName (rhs.getD "") obj rhslist
        (if 0 < st.assigns then [Effect.setPermissions obj.key st.perms] else []) ++
        [Effect.msg Recipient.toCaller (pyStrip st.cstring)] ++
        (if st.tstring ≠ "" then [Effect.msg (Recipient.toObj obj.key) (pyStrip st.tstring)]
         else [])

/-! ### CmdPuppet (`@puppet`, admin.py lines 425-459) -/

/-- What `caller.search(self.args)` yields in `CmdPuppet.func`. -/
structure PuppetTarget where
  name : String
  isCharacterType : Bool
  deriving DecidableEq, Repr

/-- Collaborators of `CmdPuppet.func`: the local search and the verdict of
`player.swap_character(new_character)`. -/
structure PuppetEnv where
  search : String → Option PuppetTarget
  swapSucceeds : Bool

def puppetUsage : String := "Usage: @puppet <character>"

/-- `CmdPuppet.func` (admin.py lines 440-459).  The `swap_character` call
itself is the control-transfer attempt, so it appears as an effect in both
outcomes. -/
def cmdPuppet (env : PuppetEnv) (args : String) : List Effect :=
  if args == "" then [Effect.msg Recipient.toCaller puppetUsage]
  else
    match env.search args with
    | none => []
    | some nc =>
      if !nc.isCharacterType then [Effect.msg Recipient.toCaller (args ++ " is not a Character.")]
      else if env.swapSucceeds then
        [Effect.swapCharacter nc.name,
         Effect.msg (Recipient.toObj nc.name) ("You now control " ++ nc.name ++ ".")]
      else
        [Effect.swapCharacter nc.name,
         Effect.msg Recipient.toCaller ("You cannot control " ++ nc.name ++ ".")]

/-! ### CmdWall (`@wall`, admin.py lines 461-480) -/

def wallUsage : String := "Usage: @wall <message>"

/-- `CmdWall.func` (admin.py lines 474-480). -/
def cmdWall (callerName : String) (args : String) : List Effect :=
  if args == "" then [Effect.msg Recipient.toCaller wallUsage]
  else [Effect.announceAll (callerName ++ " shouts \"" ++ args ++ "\"")]

/-! ### ConnectScreen (`src/config/models.py` lines 44-58) -/

/-- The `ConnectScreen` model's fields. -/
structure ConnectScreen where
  name : String
  text : String
  is_active : Bool
  deriving DecidableEq, Repr

/-- A `ConnectScreen` row created without touching `is_active`: the field
declaration `is_active = models.BooleanField(default=1, ...)` (models.py
line 51) supplies the truthy default `1`. -/
def ConnectScreen.create (name text : String) : ConnectScreen :=
  { name := name, text := text, is_active := true }

/-- Modelled from the spec: the `ConnectScreenManager` — whose code is not
among the shown sources — draws the random rotation from the active rows
only ("Only active connect screens are placed in the rotation", models.py
line 51; "multiple active rows participate in random rotation shown to
connecting users"). -/
def connectScreenRotation (screens : List ConnectScreen) : List ConnectScreen :=
  screens.filter (fun s => s.is_active)

/-! ### Concrete example environments shared by the witnesses -/

/-- Two distinct players both matching the search string "bob". -/
def delEnvAmbig : DelEnv :=
  { searchStar := fun s =>
      if s == "bob" then [⟨7, "bob", "bob", "Bob", true, true⟩, ⟨8, "bobby", "bobby", "Bobby", true, false⟩]
      else []
    playersById := fun _ => []
    userById := fun _ => none
    userByName := fun _ => none
    hasPermStringManage := true
    hasPermManage := true }

/-- An emit world: "hall" is a room containing "chair", "bob" is a
player-controlled object inside the hall, everything may be sent to, and
any other name fails to resolve. -/
def emitEnvEx : EmitEnv :=
  { callerLocationKey := "lobby"
    search := fun s =>
      if s == "hall" then some ⟨none, false, ["chair"]⟩
      else if s == "bob" then some ⟨some "hall", true, []⟩
      else none
    sendTo := fun _ => true }

/-- A password-change world with a single target "bob". -/
def newPwEnvEx : NewPwEnv :=
  { callerName := "Admin"
    searchStar := fun s => if s == "bob" then some ⟨false, "bob", "bob"⟩ else none }

/-- A permission world: "rock" is a plain object carrying exactly the
permission "fly". -/
def permEnvEx : PermEnv :=
  { callerName := "Admin"
    permGroupListing := ""
    search := fun s => if s == "rock" then some ⟨"rock", "rock", ["fly"], false, false, false⟩
      else none }

/-- The object "rock" of `permEnvEx`. -/
def rockObj : PermObj := ⟨"rock", "rock", ["fly"], false, false, false⟩

/-- A puppet world with one character "bob". -/
def puppetEnvEx : PuppetEnv :=
  { search := fun s => if s == "bob" then some ⟨"bob", true⟩ else none
    swapSucceeds := true }

end EvenniaAdmin

namespace EvenniaAdmin

/-! ### Theorems about CmdBoot -/

/-- C1: at the failing input (`@boot bob` where bob's character has a
player and the caller lacks `can_boot`), the denial message is sent to the
target player object `bob` — not to the invoking caller — with the `%s`
placeholder unfilled; nothing is disconnected and nothing else happens.
This evaluates admin.py lines 62-66 and exhibits the divergence from the
spec's "denial message to caller". -/
theorem boot_denial_goes_to_target_not_caller :
    bootEnvNoPerm.canBoot = false ∧
    cmdBoot bootEnvNoPerm [] "bob" =
      Outcome.ok [Effect.msg (Recipient.toObj "bob")
        "You don't have the permission to boot %s."] :=
  ⟨rfl, rfl⟩

/-- C4: at the failing input `@boot bob : spamming` (no `/quiet`, caller
may boot, bob connected), the disconnect notice sent to bob's session is
exactly "You have been disconnected by Admin.\n" — the supplied reason
"spamming" does not appear, because line 47 (`reason = ""`) overwrites the
reason parsed on lines 44-45. -/
theorem boot_reason_is_discarded :
    cmdBoot bootEnvPerm [] "bob : spamming" =
      Outcome.ok [Effect.msg (Recipient.toSession 1) "You have been disconnected by Admin.\n",
        Effect.disconnect 1,
        Effect.msg Recipient.toCaller "You booted bob."] :=
  rfl

/-- C9: `@boot/port` with a non-empty argument whose effective port text is
not a decimal integer raises an unhandled `ValueError` from `int(args)`
(admin.py line 54) as soon as at least one session is connected, instead of
producing a usage or error message. -/
theorem boot_port_nonint_raises (env : BootEnv) (switches : List String) (rawArgs : String)
    (hargs : rawArgs ≠ "") (hport : switches.contains "port" = true)
    (hsess : env.sessionList ≠ [])
    (hint : pyInt (bootEffectiveArg rawArgs) = none) :
    cmdBoot env switches rawArgs = Outcome.exn "ValueError" := by
  unfold cmdBoot
  rw [if_neg (by simpa using hargs), if_pos hport]
  cases h : env.sessionList with
  | nil => exact absurd h hsess
  | cons a l => rw [hint]

/-- C9 witness: `@boot/port abc` with one connected session ends in the
unhandled `ValueError`. -/
theorem boot_port_nonint_raises_witness :
    cmdBoot bootEnvPerm ["port"] "abc" = Outcome.exn "ValueError" :=
  boot_port_nonint_raises bootEnvPerm ["port"] "abc" (by decide) (by decide)
    (by decide) (by decide)

/-! ### C2: empty required arguments -/

/-- C2: each of the seven admin commands, invoked with its required
arguments empty (no args; for `@userpassword` no right-hand side; for
`@perm` additionally without the `list` switch, which makes the empty
invocation a listing instead), sends exactly one usage message to the
caller and produces no other effect: no mutation and no other send. -/
theorem empty_args_usage_only (benv : BootEnv) (denv : DelEnv) (eenv : EmitEnv)
    (nenv : NewPwEnv) (penv : PermEnv) (puenv : PuppetEnv)
    (callerName cmdstring lhs lhs2 : String) (switches : List String)
    (rhs : Option String) (lhslist rhslist : List String)
    (hlist : "list" ∉ switches) :
    cmdBoot benv switches "" = Outcome.ok [Effect.msg Recipient.toCaller bootUsage] ∧
    cmdDelPlayer denv switches "" = [Effect.msg Recipient.toCaller delPlayerUsage] ∧
    cmdEmit eenv cmdstring switches "" rhs lhslist = [Effect.msg Recipient.toCaller emitUsage] ∧
    cmdNewPassword nenv lhs none = [Effect.msg Recipient.toCaller newPasswordUsage] ∧
    cmdPerm penv switches "" lhs2 none rhslist = [Effect.msg Recipient.toCaller permUsage] ∧
    cmdPuppet puenv "" = [Effect.msg Recipient.toCaller puppetUsage] ∧
    cmdWall callerName "" = [Effect.msg Recipient.toCaller wallUsage] := by
  refine ⟨rfl, rfl, rfl, rfl, ?_, rfl, rfl⟩
  simp [cmdPerm, hlist]

/-- C2 witness: the seven usage messages at concrete environments with no
switches. -/
theorem empty_args_usage_only_witness :
    cmdBoot bootEnvPerm [] "" = Outcome.ok [Effect.msg Recipient.toCaller bootUsage] ∧
    cmdDelPlayer delEnvAmbig [] "" = [Effect.msg Recipient.toCaller delPlayerUsage] ∧
    cmdEmit emitEnvEx "@emit" [] "" none [] = [Effect.msg Recipient.toCaller emitUsage] ∧
    cmdNewPassword newPwEnvEx "" none = [Effect.msg Recipient.toCaller newPasswordUsage] ∧
    cmdPerm permEnvEx [] "" "" none [] = [Effect.msg Recipient.toCaller permUsage] ∧
    cmdPuppet puppetEnvEx "" = [Effect.msg Recipient.toCaller puppetUsage] ∧
    cmdWall "Admin" "" = [Effect.msg Recipient.toCaller wallUsage] :=
  empty_args_usage_only bootEnvPerm delEnvAmbig emitEnvEx newPwEnvEx permEnvEx puppetEnvEx
    "Admin" "@emit" "" "" [] none [] [] (by decide)

/-! ### C3: ambiguous @delplayer match -/

/-- C3: at the failing input (`@delplayer bob` where the player search
returns two matches), `CmdDelPlayer.func` builds its "There where multiple
matches:" string but never sends it (admin.py lines 169-173 hold no
`caller.msg`) and returns with no effect at all — nothing is deleted, but
the claimed ambiguity report is not delivered either. -/
theorem delplayer_ambiguity_silent_return :
    (delEnvAmbig.searchStar "bob").length = 2 ∧
    cmdDelPlayer delEnvAmbig [] "bob" = [] :=
  ⟨rfl, rfl⟩

/-! ### C5: multi-target emit aborts at the first failed lookup -/

/-- A failed lookup inside the emit loop ends the whole run: targets after
the failing one contribute nothing. -/
theorem emitLoop_fail_stops (env : EmitEnv) (ro po sc : Bool) (m t : String)
    (hfail : env.search t = none) (post : List String) :
    ∀ pre, emitLoop env ro po sc m (pre ++ t :: post) = emitLoop env ro po sc m (pre ++ [t]) := by
  intro pre
  induction pre with
  | nil => simp [emitLoop, hfail]
  | cons a l ih =>
    simp only [List.cons_append, emitLoop]
    cases env.search a with
    | none => rfl
    | some obj => simp only [List.append_eq, ih]

/-- C5: in a multi-target emit (`t1,...,tn = message`), when resolution
fails for some target, the command's effects are exactly those of the run
cut off at that target: no delivery and no skip or denial notice for any
later target. -/
theorem emit_aborts_after_failed_lookup (env : EmitEnv) (cmdstring : String)
    (switches : List String) (args m t : String) (pre post : List String)
    (hargs : args ≠ "") (hm : m ≠ "") (hfail : env.search t = none) :
    cmdEmit env cmdstring switches args (some m) (pre ++ t :: post) =
      cmdEmit env cmdstring switches args (some m) (pre ++ [t]) := by
  have hb : pyFalsyOptStr (some m) = false := by
    simpa [pyFalsyOptStr] using hm
  have ha : (args == "") = false := by simpa using hargs
  simp only [cmdEmit, hb, ha, Bool.false_eq_true, if_false]
  exact emitLoop_fail_stops env _ _ _ m t hfail post pre

/-- C5 witness: with targets `bob, ghost, hall` where "ghost" does not
resolve, the run equals the run stopped at "ghost": the resolvable later
target "hall" is never delivered to nor warned about. -/
theorem emit_aborts_after_failed_lookup_witness :
    cmdEmit emitEnvEx "@emit" [] "bob, ghost, hall = hi" (some "hi")
        (["bob"] ++ "ghost" :: ["hall"]) =
      cmdEmit emitEnvEx "@emit" [] "bob, ghost, hall = hi" (some "hi") (["bob"] ++ ["ghost"]) :=
  emit_aborts_after_failed_lookup emitEnvEx "@emit" [] "bob, ghost, hall = hi" "hi" "ghost"
    ["bob"] ["hall"] (by decide) (by decide) (by decide)

/-! ### C6: duplicate permission add is idempotent -/

/-- C6: granting a permission `p` that the object already carries (with
exactly one copy) reports "is already defined", appends nothing, performs
no assignment, and leaves exactly one entry equal to `p`. -/
theorem perm_add_idempotent (env : PermEnv) (switches : List String)
    (args lhs p : String) (obj : PermObj)
    (hargs : args ≠ "") (hdel : "del" ∉ switches)
    (hsearch : env.search lhs = some obj)
    (hp : p ≠ "") (hmem : p ∈ obj.permissions)
    (hcount : obj.permissions.count p = 1) :
    (permAddRun env.callerName p obj [p]).perms = obj.permissions ∧
    (permAddRun env.callerName p obj [p]).perms.count p = 1 ∧
    cmdPerm env switches args lhs (some p) [p] =
      [Effect.msg Recipient.toCaller
        (pyStrip ("\nPermission '" ++ p ++ "' is already defined on " ++
          permPString obj ++ obj.name ++ "."))] := by
  have hrun : permAddRun env.callerName p obj [p] =
      { perms := obj.permissions
        cstring := "\nPermission '" ++ p ++ "' is already defined on " ++
          permPString obj ++ obj.name ++ "."
        tstring := ""
        assigns := 0 } := by
    simp [permAddRun, permAddStep, hmem, String.empty_append]
  have ha : (args == "") = false := by simpa using hargs
  have hpf : pyFalsyOptStr (some p) = false := by simpa [pyFalsyOptStr] using hp
  refine ⟨by rw [hrun], by rw [hrun]; exact hcount, ?_⟩
  simp [cmdPerm, ha, hsearch, hpf, hdel, hrun]

/-- C6 witness: `@perm rock = fly` when "rock" already carries exactly
`["fly"]`. -/
theorem perm_add_idempotent_witness :
    (permAddRun "Admin" "fly" rockObj ["fly"]).perms = rockObj.permissions ∧
    (permAddRun "Admin" "fly" rockObj ["fly"]).perms.count "fly" = 1 ∧
    cmdPerm permEnvEx [] "rock = fly" "rock" (some "fly") ["fly"] =
      [Effect.msg Recipient.toCaller
        (pyStrip ("\nPermission '" ++ "fly" ++ "' is already defined on " ++
          permPString rockObj ++ rockObj.name ++ "."))] :=
  perm_add_idempotent permEnvEx [] "rock = fly" "rock" "fly" rockObj
    (by decide) (by decide) (by decide) (by decide) (by decide) (by decide)

/-! ### C7: deleting an absent permission changes nothing -/

/-- C7: `@perm/del obj = p` with `p` not on the object reports "was not
defined" (worded with the left-hand search string), performs no
assignment, and leaves the permission list exactly as it was. -/
theorem perm_del_missing_leaves_unchanged (env : PermEnv) (switches : List String)
    (args lhs p : String) (obj : PermObj)
    (hargs : args ≠ "") (hdel : "del" ∈ switches)
    (hsearch : env.search lhs = some obj)
    (hp : p ≠ "") (hmem : p ∉ obj.permissions) :
    (permDelRun env.callerName lhs obj [p]).perms = obj.permissions ∧
    cmdPerm env switches args lhs (some p) [p] =
      [Effect.msg Recipient.toCaller
        (pyStrip ("\nPermission '" ++ p ++ "' was not defined on " ++
          permPString obj ++ lhs ++ "."))] := by
  have hrun : permDelRun env.callerName lhs obj [p] =
      { perms := obj.permissions
        cstring := "\nPermission '" ++ p ++ "' was not defined on " ++
          permPString obj ++ lhs ++ "."
        tstring := ""
        assigns := 0 } := by
    simp [permDelRun, permDelStep, hmem, String.empty_append]
  have ha : (args == "") = false := by simpa using hargs
  have hpf : pyFalsyOptStr (some p) = false := by simpa [pyFalsyOptStr] using hp
  refine ⟨by rw [hrun], ?_⟩
  simp [cmdPerm, ha, hsearch, hpf, hdel, hrun]

/-- C7 witness: `@perm/del rock = dig` when "rock" carries only `["fly"]`. -/
theorem perm_del_missing_leaves_unchanged_witness :
    (permDelRun "Admin" "rock" rockObj ["dig"]).perms = rockObj.permissions ∧
    cmdPerm permEnvEx ["del"] "rock = dig" "rock" (some "dig") ["dig"] =
      [Effect.msg Recipient.toCaller
        (pyStrip ("\nPermission '" ++ "dig" ++ "' was not defined on " ++
          permPString rockObj ++ "rock" ++ "."))] :=
  perm_del_missing_leaves_unchanged permEnvEx ["del"] "rock = dig" "rock" "dig" rockObj
    (by decide) (by decide) (by decide) (by decide) (by decide)

/-! ### C8: forced rooms-only / players-only filtering -/

/-- C8 counterexample: invoked as `@remit` with the `/players` switch, the
room "hall" — which resolves, is a room (`location = none`) and passes
`send_to` — receives no message at all: the players-only filter stays
active alongside the forced rooms-only filter and skips it.  This refutes
"under rooms-only ... every target that is a room (and passes the send_to
permission check) receives the message" for arbitrary switches. -/
theorem remit_players_switch_skips_room :
    emitEnvEx.search "hall" = some ⟨none, false, ["chair"]⟩ ∧
    emitEnvEx.sendTo "hall" = true ∧
    cmdEmit emitEnvEx "@remit" ["players"] "hall = hi" (some "hi") ["hall"] =
      [Effect.msg Recipient.toCaller "hall has no active player. Ignored."] :=
  ⟨rfl, rfl, rfl⟩

/-- C8 (amended): `@remit` forces rooms-only and `@pemit` forces
players-only whatever the switches; under `@remit`, a resolved target that
is not a room contributes exactly the "is not a room. Ignored." warning
and no delivery to itself, and a resolved room target passing `send_to`
is delivered the message — provided the players-only filter is not
simultaneously active (no `/players` switch). -/
theorem remit_pemit_forced_filters (env : EmitEnv) (switches : List String) (sc : Bool)
    (m t : String) (rest : List String) (obj : EmitObj)
    (hres : env.search t = some obj)
    (hplayers : "players" ∉ switches) :
    emitRoomsOnly "@remit" switches = true ∧
    emitPlayersOnly "@pemit" switches = true ∧
    (obj.location.isSome = true →
      emitLoop env (emitRoomsOnly "@remit" switches) (emitPlayersOnly "@remit" switches)
          sc m (t :: rest) =
        Effect.msg Recipient.toCaller (t ++ " is not a room. Ignored.") ::
          emitLoop env (emitRoomsOnly "@remit" switches) (emitPlayersOnly "@remit" switches)
            sc m rest) ∧
    (obj.location = none → env.sendTo t = true →
      ∃ tail,
        emitLoop env (emitRoomsOnly "@remit" switches) (emitPlayersOnly "@remit" switches)
            sc m (t :: rest) =
          Effect.msg (Recipient.toObj t) m :: tail) := by
  have hro : emitRoomsOnly "@remit" switches = true := by simp [emitRoomsOnly]
  have hpo : emitPlayersOnly "@remit" switches = false := by
    simp [emitPlayersOnly, hplayers]
  have hpe : emitPlayersOnly "@pemit" switches = true := by simp [emitPlayersOnly]
  refine ⟨hro, hpe, ?_, ?_⟩
  · intro hloc
    simp [emitLoop, hres, hro, hloc]
  · intro hloc hsend
    refine ⟨(if sc then
        obj.contents.map (fun c => Effect.msg (Recipient.toObj c) m) ++
          [Effect.msg Recipient.toCaller ("Emitted to " ++ t ++ " and its contents.")]
      else [Effect.msg Recipient.toCaller ("Emitted to " ++ t ++ ".")]) ++
      emitLoop env (emitRoomsOnly "@remit" switches) (emitPlayersOnly "@remit" switches)
        sc m rest, ?_⟩
    simp [emitLoop, hres, hro, hpo, hloc, hsend]

/-- C8 witness: under `@remit` with no switches, the non-room "bob" is
warned about and skipped, while the room "hall" is delivered to. -/
theorem remit_pemit_forced_filters_witness :
    emitRoomsOnly "@remit" [] = true ∧
    emitPlayersOnly "@pemit" [] = true ∧
    ((⟨some "hall", true, []⟩ : EmitObj).location.isSome = true →
      emitLoop emitEnvEx (emitRoomsOnly "@remit" []) (emitPlayersOnly "@remit" [])
          false "hi" ("bob" :: ["hall"]) =
        Effect.msg Recipient.toCaller ("bob" ++ " is not a room. Ignored.") ::
          emitLoop emitEnvEx (emitRoomsOnly "@remit" []) (emitPlayersOnly "@remit" [])
            false "hi" ["hall"]) ∧
    ((⟨some "hall", true, []⟩ : EmitObj).location = none → emitEnvEx.sendTo "bob" = true →
      ∃ tail,
        emitLoop emitEnvEx (emitRoomsOnly "@remit" []) (emitPlayersOnly "@remit" [])
            false "hi" ("bob" :: ["hall"]) =
          Effect.msg (Recipient.toObj "bob") "hi" :: tail) :=
  remit_pemit_forced_filters emitEnvEx [] false "hi" "bob" ["hall"]
    ⟨some "hall", true, []⟩ (by decide) (by decide)

/-! ### C10: connect screens are active by default -/

/-- C10: a `ConnectScreen` created without explicitly setting `is_active`
has `is_active` true (`BooleanField(default=1)`), and therefore belongs to
the rotation shown to connecting users whenever it is stored, regardless
of what else is stored. -/
theorem connect_screen_default_in_rotation (nm tx : String) (screens : List ConnectScreen) :
    (ConnectScreen.create nm tx).is_active = true ∧
    ConnectScreen.create nm tx ∈ connectScreenRotation (ConnectScreen.create nm tx :: screens) := by
  constructor
  · rfl
  · simp [connectScreenRotation, ConnectScreen.create]

end EvenniaAdmin
